import Mathlib

/-!
Verification of the abbaas-painter backend: a shallow embedding of the
inpainting pipeline (`app/services/inpaint_service.py`), the image codec
(`app/utils/image_utils.py`) and the HTTP route error mapping
(`app/api/routes.py`), together with proofs of the specified properties.

Numpy arrays are embedded as total functions `Nat → Nat → _` together with
explicit height/width; uint8 values are `Nat` (well-formedness `< 256` is
carried as a hypothesis where it matters); float32 arithmetic on the exact
values arising here (multiples of 1/255 combined with 0/1 weights) is exact,
so it is embedded as `ℚ`.
-/

/-! ### Padding (`LaMaInpainter._pad_to_multiple`) -/

/-- `np.pad(..., mode="reflect")` index map: position `i` of the padded axis
reads position `reflectIdx n i` of an axis of length `n` (triangle wave of
period `2*(n-1)`, without repeating the edge sample; a length-1 axis always
reads its only sample). -/
def reflectIdx (n i : Nat) : Nat :=
  if n ≤ 1 then 0
  else if i % (2 * (n - 1)) < n then i % (2 * (n - 1))
  else 2 * (n - 1) - i % (2 * (n - 1))

/-- Padding added after an axis of length `n`: `(multiple - n % multiple) % multiple`. -/
def padAmount (n mult : Nat) : Nat := (mult - n % mult) % mult

/-- Result of `_pad_to_multiple`: the padded array plus the recorded original
`(h, w)`. The element type `α` is `Nat` for a mask plane and `Nat → Nat`
(channel-indexed) for a colour image; padding acts on the two spatial axes
and leaves the channel axis untouched, as in the source. -/
structure Padded (α : Type) where
  H : Nat
  W : Nat
  pix : Nat → Nat → α
  orig : Nat × Nat

/-- `LaMaInpainter._pad_to_multiple(img, multiple)`: computes
`pad_h = (multiple - h % multiple) % multiple` (same for `w`), pads only at
the bottom/right with `mode="reflect"`, and returns the padded array with the
original `(h, w)`. -/
def pad_to_multiple {α : Type} (h w : Nat) (pix : Nat → Nat → α) (mult : Nat) : Padded α :=
  { H := h + padAmount h mult
    W := w + padAmount w mult
    pix := fun i j => pix (reflectIdx h i) (reflectIdx w j)
    orig := (h, w) }

/-! ### Mask binarization and dilation (`LaMaInpainter.inpaint`, preprocessing) -/

/-- `mask_binary = (mask > 127).astype(np.uint8) * 255`. -/
def mask_binary (mask : Nat → Nat → Nat) : Nat → Nat → Nat :=
  fun i j => if 127 < mask i j then 255 else 0

/-- One iteration of `scipy.ndimage.binary_dilation` on an `h × w` boolean
plane with the default structuring element (4-connected cross) and
`border_value = 0`: a pixel is set iff it or one of its in-bounds
4-neighbours is set. -/
def dilateOnce (h w : Nat) (m : Nat → Nat → Bool) : Nat → Nat → Bool :=
  fun i j =>
    m i j || (decide (0 < i) && m (i - 1) j) || (decide (i + 1 < h) && m (i + 1) j)
      || (decide (0 < j) && m i (j - 1)) || (decide (j + 1 < w) && m i (j + 1))

/-- `mask_dilated = ndimage.binary_dilation(mask_binary > 0, iterations=2)
.astype(np.uint8) * 255` on an `h × w` mask. -/
def mask_dilated (h w : Nat) (mask : Nat → Nat → Nat) : Nat → Nat → Nat :=
  fun i j =>
    if dilateOnce h w (dilateOnce h w (fun a b => decide (0 < mask_binary mask a b))) i j
    then 255 else 0

/-! ### Tensors, model call, clipping and compositing (`LaMaInpainter.inpaint`) -/

/-- The padded colour image, `image_padded`. -/
def paddedImagePix (h w : Nat) (image : Nat → Nat → Nat → Nat) : Nat → Nat → Nat → Nat :=
  fun i j c => (pad_to_multiple h w (fun a b ch => image a b ch) 8).pix i j c

/-- The padded dilated mask, `mask_padded`. -/
def paddedMaskPix (h w : Nat) (mask : Nat → Nat → Nat) : Nat → Nat → Nat :=
  (pad_to_multiple h w (mask_dilated h w mask) 8).pix

/-- `mask_tensor = torch.from_numpy(mask_padded).float() / 255.0`. -/
def mask_tensor (h w : Nat) (mask : Nat → Nat → Nat) : Nat → Nat → ℚ :=
  fun i j => (paddedMaskPix h w mask i j : ℚ) / 255

/-- `image_tensor = (torch.from_numpy(image_padded).float() / 255.0) * (1 - mask_tensor)`:
normalized image with the masked region zeroed out. The `(1, 3, H, W)`
permutation is an index renaming and is kept as `(i, j, c)` indexing. -/
def image_tensor (h w : Nat) (image : Nat → Nat → Nat → Nat) (mask : Nat → Nat → Nat) :
    Nat → Nat → Nat → ℚ :=
  fun i j c => (paddedImagePix h w image i j c : ℚ) / 255 * (1 - mask_tensor h w mask i j)

/-- The opaque LaMa forward pass: a function from the (masked, normalized)
image tensor and the mask tensor to an output tensor. -/
def LamaModel : Type :=
  (Nat → Nat → Nat → ℚ) → (Nat → Nat → ℚ) → Nat → Nat → Nat → ℚ

/-- `result = np.clip(result * 255, 0, 255).astype(np.uint8)` applied to the
model output (conversion of an in-range float to uint8 truncates). -/
def clippedResult (h w : Nat) (image : Nat → Nat → Nat → Nat) (mask : Nat → Nat → Nat)
    (model : LamaModel) : Nat → Nat → Nat → Nat :=
  fun i j c =>
    (⌊min 255 (max 0 (model (image_tensor h w image mask) (mask_tensor h w mask) i j c * 255))⌋).toNat

/-- The composited output of `LaMaInpainter.inpaint`:
`final_result = (result * mask_3ch + original_image * (1 - mask_3ch)).astype(np.uint8)`
where `mask_3ch` broadcasts `mask_dilated[:h, :w] / 255.0` over the 3
channels and `result` is the model output cropped to `[:h, :w]` (cropping is
index restriction, so the same function is read at `i < h`, `j < w`). -/
def inpaintFinal (h w : Nat) (image : Nat → Nat → Nat → Nat) (mask : Nat → Nat → Nat)
    (model : LamaModel) : Nat → Nat → Nat → Nat :=
  fun i j c =>
    (⌊(clippedResult h w image mask model i j c : ℚ) * ((mask_dilated h w mask i j : ℚ) / 255)
      + (image i j c : ℚ) * (1 - (mask_dilated h w mask i j : ℚ) / 255)⌋).toNat

/-! ### Helper lemmas -/

lemma reflectIdx_of_lt (n i : Nat) (h : i < n) : reflectIdx n i = i := by
  unfold reflectIdx
  by_cases h1 : n ≤ 1
  · have : i = 0 := by omega
    simp [h1, this]
  · have hm : i % (2 * (n - 1)) = i := Nat.mod_eq_of_lt (by omega)
    rw [if_neg h1, hm, if_pos h]

lemma mask_dilated_cases (h w : Nat) (mask : Nat → Nat → Nat) (i j : Nat) :
    mask_dilated h w mask i j = 0 ∨ mask_dilated h w mask i j = 255 := by
  unfold mask_dilated
  split
  · right; rfl
  · left; rfl

/-! ### Claims about the array pipeline -/

/-- C4: padding to a multiple of 8 yields each dimension rounded up to the
next multiple of 8 — a multiple of 8 that is 0 to 7 larger than the
original — and records the original `(h, w)`. -/
theorem pad_to_multiple_dims {α : Type} (h w : Nat) (pix : Nat → Nat → α) :
    (pad_to_multiple h w pix 8).H = (h + 7) / 8 * 8 ∧
    (pad_to_multiple h w pix 8).H % 8 = 0 ∧
    h ≤ (pad_to_multiple h w pix 8).H ∧
    (pad_to_multiple h w pix 8).H ≤ h + 7 ∧
    (pad_to_multiple h w pix 8).W = (w + 7) / 8 * 8 ∧
    (pad_to_multiple h w pix 8).W % 8 = 0 ∧
    w ≤ (pad_to_multiple h w pix 8).W ∧
    (pad_to_multiple h w pix 8).W ≤ w + 7 ∧
    (pad_to_multiple h w pix 8).orig = (h, w) := by
  refine ⟨?_, ?_, ?_, ?_, ?_, ?_, ?_, ?_, rfl⟩ <;>
    simp only [pad_to_multiple, padAmount] <;> omega

/-- C6: binarization (`(mask > 127) * 255`) is idempotent. -/
theorem binarize_idempotent (mask : Nat → Nat → Nat) :
    mask_binary (mask_binary mask) = mask_binary mask := by
  funext i j
  unfold mask_binary
  split <;> simp

/-- C10: reflect-padding only appends rows at the bottom and columns at the
right; on `[0,h) × [0,w)` the padded array agrees with the original
element-for-element, so cropping the output back to `(h, w)` addresses the
same pixel positions as the unpadded input. -/
theorem pad_preserves_topleft {α : Type} (h w : Nat) (pix : Nat → Nat → α) (i j : Nat)
    (hi : i < h) (hj : j < w) :
    (pad_to_multiple h w pix 8).pix i j = pix i j := by
  simp only [pad_to_multiple]
  rw [reflectIdx_of_lt h i hi, reflectIdx_of_lt w j hj]

/-- Witness for C10 at a concrete array. -/
theorem pad_preserves_topleft_witness :
    (pad_to_multiple 3 5 (fun i j => 10 * i + j) 8).pix 2 4 = 24 :=
  pad_preserves_topleft 3 5 (fun i j => 10 * i + j) 2 4 (by decide) (by decide)

/-- C1: wherever the (cropped) dilated mask is 0, the composited output
equals the original input pixel exactly, on every colour channel. -/
theorem composite_preserves_unmasked (h w : Nat) (image : Nat → Nat → Nat → Nat)
    (mask : Nat → Nat → Nat) (model : LamaModel) (i j c : Nat)
    (hi : i < h) (hj : j < w) (hc : c < 3)
    (hm : mask_dilated h w mask i j = 0) :
    inpaintFinal h w image mask model i j c = image i j c := by
  unfold inpaintFinal
  rw [hm]
  norm_num

/-- Witness for C1: a concrete 4×4 all-black mask dilates to 0 everywhere,
and the composite returns the original pixel there. -/
theorem composite_preserves_unmasked_witness :
    inpaintFinal 4 4 (fun i j c => 10 * i + j + c) (fun _ _ => 0)
      (fun _ _ _ _ _ => (1 : ℚ) / 3) 1 2 0 = 12 :=
  composite_preserves_unmasked 4 4 (fun i j c => 10 * i + j + c) (fun _ _ => 0)
    (fun _ _ _ _ _ => (1 : ℚ) / 3) 1 2 0 (by decide) (by decide) (by decide) (by decide)

/-- C3: every pixel of the composited result equals
`round(model_output * weight + original_input * (1 - weight))` with
`weight = dilatedMask / 255`; the code's float-to-uint8 truncation coincides
with rounding because the dilated mask is always 0 or 255, making the blend
an exact integer. -/
theorem composite_round_formula (h w : Nat) (image : Nat → Nat → Nat → Nat)
    (mask : Nat → Nat → Nat) (model : LamaModel) (i j c : Nat)
    (hi : i < h) (hj : j < w) (hc : c < 3) :
    inpaintFinal h w image mask model i j c =
      (round ((clippedResult h w image mask model i j c : ℚ)
          * ((mask_dilated h w mask i j : ℚ) / 255)
        + (image i j c : ℚ) * (1 - (mask_dilated h w mask i j : ℚ) / 255))).toNat := by
  unfold inpaintFinal
  rcases mask_dilated_cases h w mask i j with h0 | h255
  · rw [h0]; norm_num
  · rw [h255]; norm_num

/-- Witness for C3 at a concrete input. -/
theorem composite_round_formula_witness :
    inpaintFinal 4 4 (fun i j c => 10 * i + j + c) (fun _ _ => 0)
      (fun _ _ _ _ _ => (1 : ℚ) / 3) 0 0 1 =
      (round ((clippedResult 4 4 (fun i j c => 10 * i + j + c) (fun _ _ => 0)
          (fun _ _ _ _ _ => (1 : ℚ) / 3) 0 0 1 : ℚ)
          * ((mask_dilated 4 4 (fun _ _ => 0) 0 0 : ℚ) / 255)
        + ((10 * 0 + 0 + 1 : Nat) : ℚ)
          * (1 - (mask_dilated 4 4 (fun _ _ => 0) 0 0 : ℚ) / 255))).toNat :=
  composite_round_formula 4 4 (fun i j c => 10 * i + j + c) (fun _ _ => 0)
    (fun _ _ _ _ _ => (1 : ℚ) / 3) 0 0 1 (by decide) (by decide) (by decide)

/-- C9: after binarization and dilation every mask pixel is exactly 0 or 255,
every per-pixel blend weight is exactly 0 or 1, and every composited pixel is
bit-equal to either the model-output pixel or the original pixel — no
fractional blending occurs. -/
theorem mask_blend_dichotomy (h w : Nat) (image : Nat → Nat → Nat → Nat)
    (mask : Nat → Nat → Nat) (model : LamaModel) (i j c : Nat) :
    (mask_dilated h w mask i j = 0 ∨ mask_dilated h w mask i j = 255) ∧
    ((mask_dilated h w mask i j : ℚ) / 255 = 0 ∨ (mask_dilated h w mask i j : ℚ) / 255 = 1) ∧
    (inpaintFinal h w image mask model i j c = clippedResult h w image mask model i j c ∨
      inpaintFinal h w image mask model i j c = image i j c) := by
  rcases mask_dilated_cases h w mask i j with h0 | h255
  · refine ⟨Or.inl h0, Or.inl (by rw [h0]; norm_num), Or.inr ?_⟩
    unfold inpaintFinal
    rw [h0]; norm_num
  · refine ⟨Or.inr h255, Or.inr (by rw [h255]; norm_num), Or.inl ?_⟩
    unfold inpaintFinal
    rw [h255]; norm_num

/-! ### Mask resizing (`inpaint_image`) -/

/-- A grayscale numpy array with its shape. -/
structure GrayArr where
  h : Nat
  w : Nat
  pix : Nat → Nat → Nat

/-- PIL `Image.resize(..., Image.NEAREST)` source-index map (centre-based
affine sampling): destination index `n` on an axis resized from `src` to
`dst` samples reads source index `⌊(n + 1/2) · src/dst⌋`. -/
def srcIndex (dst src n : Nat) : Nat := (2 * n + 1) * src / (2 * dst)

/-- `mask_pil.resize((dstW, dstH), Image.NEAREST)` followed by `np.array`. -/
def nearestResize (mask : GrayArr) (dstW dstH : Nat) : GrayArr :=
  { h := dstH
    w := dstW
    pix := fun i j => mask.pix (srcIndex dstH mask.h i) (srcIndex dstW mask.w j) }

/-- The mask-shape adjustment in `inpaint_image`: if
`mask_np.shape[:2] != image_np.shape[:2]`, resize the mask to
`(image_np.shape[1], image_np.shape[0])` with nearest-neighbour
interpolation; otherwise leave it unchanged. -/
def resizeMaskIfNeeded (imgH imgW : Nat) (mask : GrayArr) : GrayArr :=
  if (mask.h, mask.w) = (imgH, imgW) then mask else nearestResize mask imgW imgH

/-- C7: when mask and image shapes differ the service replaces the mask by
its nearest-neighbour resize to the image's dimensions and proceeds (the
operation is total, so no error is raised); when they already match the mask
is left unchanged; in both cases the resulting shape equals the image's. -/
theorem resize_mask_spec (imgH imgW : Nat) (mask : GrayArr) :
    (resizeMaskIfNeeded imgH imgW mask).h = imgH ∧
    (resizeMaskIfNeeded imgH imgW mask).w = imgW ∧
    ((mask.h, mask.w) = (imgH, imgW) → resizeMaskIfNeeded imgH imgW mask = mask) ∧
    ((mask.h, mask.w) ≠ (imgH, imgW) →
      resizeMaskIfNeeded imgH imgW mask = nearestResize mask imgW imgH) := by
  by_cases heq : (mask.h, mask.w) = (imgH, imgW)
  · have hm : resizeMaskIfNeeded imgH imgW mask = mask := by
      unfold resizeMaskIfNeeded
      rw [if_pos heq]
    exact ⟨by rw [hm]; exact congrArg Prod.fst heq, by rw [hm]; exact congrArg Prod.snd heq,
      fun _ => hm, fun hne => absurd heq hne⟩
  · have hm : resizeMaskIfNeeded imgH imgW mask = nearestResize mask imgW imgH := by
      unfold resizeMaskIfNeeded
      rw [if_neg heq]
    exact ⟨by rw [hm]; rfl, by rw [hm]; rfl, fun h => absurd h heq, fun _ => hm⟩

/-- Witness for C7: a 2×2 mask against a 3×4 image gets resized; a matching
3×4 mask is left unchanged. -/
theorem resize_mask_spec_witness :
    resizeMaskIfNeeded 3 4 (GrayArr.mk 2 2 (fun i j => i + j)) =
      nearestResize (GrayArr.mk 2 2 (fun i j => i + j)) 4 3 ∧
    resizeMaskIfNeeded 3 4 (GrayArr.mk 3 4 (fun i j => i + j)) =
      GrayArr.mk 3 4 (fun i j => i + j) :=
  ⟨(resize_mask_spec 3 4 (GrayArr.mk 2 2 (fun i j => i + j))).2.2.2 (by decide),
   (resize_mask_spec 3 4 (GrayArr.mk 3 4 (fun i j => i + j))).2.2.1 (by decide)⟩

/-! ### Model singleton and lazy loading (`LaMaInpainter.__new__/__init__`,
`_load_model`, `get_inpainter`) -/

/-- The state of a `LaMaInpainter` object: the `_initialized` flag set by
`__init__` and `self.model` (`None` until `_load_model` runs; the loaded
torchscript handle is abstracted as a `Nat` identifier). -/
structure InpainterObj where
  initialized : Bool
  model : Option Nat
deriving DecidableEq

/-- Process-wide state: the class attribute `LaMaInpainter._instance` (at
most one object is ever constructed, so the heap is the single optional
object) and whether the module global `_inpainter` has been set (when set it
aliases `_instance`). -/
structure ProcState where
  instanceO : Option InpainterObj
  inpainterSet : Bool
deriving DecidableEq

/-- `LaMaInpainter()`: `__new__` returns the existing `_instance` or creates
it with `_initialized = False`; `__init__` then returns immediately when
`_initialized` is already true, and otherwise sets `_initialized = True` and
`self.model = None`. Returns the updated state and the returned object. -/
def constructInpainter (s : ProcState) : ProcState × InpainterObj :=
  match s.instanceO with
  | none => ({ s with instanceO := some ⟨true, none⟩ }, ⟨true, none⟩)
  | some o =>
    if o.initialized then (s, o)
    else ({ s with instanceO := some ⟨true, none⟩ }, ⟨true, none⟩)

/-- `get_inpainter()`: if the module global `_inpainter` is `None`, construct
`LaMaInpainter()` and store it; return the stored instance. -/
def get_inpainter (s : ProcState) : ProcState × InpainterObj :=
  if s.inpainterSet then (s, s.instanceO.getD ⟨true, none⟩)
  else ({ (constructInpainter s).1 with inpainterSet := true }, (constructInpainter s).2)

/-- `LaMaInpainter._load_model()`: returns immediately when `self.model` is
not `None`; otherwise downloads the checkpoint (`fetch` abstracts the handle
obtained from `hf_hub_download` + `torch.jit.load`) and stores it. The `Bool`
records whether a fetch happened on this call. -/
def load_model (fetch : Nat) (o : InpainterObj) : InpainterObj × Bool :=
  match o.model with
  | some _ => (o, false)
  | none => ({ o with model := some fetch }, true)

/-- C8: model acquisition is sequentially idempotent and at-most-once — the
first `_load_model` call on a freshly constructed object fetches the
checkpoint and sets the handle; any `_load_model` call after a first one is a
no-op that fetches nothing and leaves the handle unchanged; and a second
`get_inpainter` call returns exactly the state and instance of the first, so
every call yields the same process-wide instance. -/
theorem singleton_load_spec (s : ProcState) (o : InpainterObj) (f g : Nat) :
    load_model f ⟨true, none⟩ = (⟨true, some f⟩, true) ∧
    load_model g (load_model f o).1 = ((load_model f o).1, false) ∧
    get_inpainter (get_inpainter s).1 = get_inpainter s := by
  refine ⟨rfl, ?_, ?_⟩
  · rcases o with ⟨b, m⟩
    cases m <;> simp [load_model]
  · rcases s with ⟨inst, setF⟩
    cases setF
    · cases inst with
      | none => simp [get_inpainter, constructInpainter]
      | some o => rcases o with ⟨b, m⟩; cases b <;> simp [get_inpainter, constructInpainter]
    · simp [get_inpainter]

/-! ### Image codec (`app/utils/image_utils.py`) and route error mapping
(`app/api/routes.py`)

Python exceptions relevant to the route's handlers: `ValueError` (raised
explicitly for a bad data URL, and by `base64.b64decode` via its subclass
`binascii.Error`) is caught by `except ValueError` and mapped to HTTP 400;
everything else — in particular `PIL.UnidentifiedImageError`, which is a
subclass of `OSError`, raised by `Image.open` on unrecognizable bytes — falls
through to `except Exception` and is mapped to HTTP 500. -/

/-- The two error classes the route distinguishes: `valueError` models
`ValueError` and its subclasses, `osError` models every other exception
(here always `PIL.UnidentifiedImageError`, an `OSError` subclass). -/
inductive PyError where
  | valueError (msg : String)
  | osError (msg : String)
deriving DecidableEq

/-- The standard base64 alphabet, in value order. -/
def b64Alphabet : List Char :=
  "ABCDEFGHIJKLMNOPQRSTUVWXYZabcdefghijklmnopqrstuvwxyz0123456789+/".data

/-- Character for a 6-bit value. -/
def encodeB64Char (n : Nat) : Char := b64Alphabet.getD n 'A'

/-- 6-bit value of an alphabet character. -/
def decodeB64Char (c : Char) : Nat := b64Alphabet.findIdx (fun x => x = c)

/-- `base64.b64encode`: bytes to base64 characters, three bytes to four
characters, with `=` padding for a final group of one or two bytes. -/
def b64encodeBytes : List Nat → List Char
  | x :: y :: z :: rest =>
    encodeB64Char (x / 4) :: encodeB64Char (x % 4 * 16 + y / 16) ::
      encodeB64Char (y % 16 * 4 + z / 64) :: encodeB64Char (z % 64) :: b64encodeBytes rest
  | [x, y] => [encodeB64Char (x / 4), encodeB64Char (x % 4 * 16 + y / 16),
      encodeB64Char (y % 16 * 4), '=']
  | [x] => [encodeB64Char (x / 4), encodeB64Char (x % 4 * 16), '=', '=']
  | [] => []

/-- Bytes from a run of 6-bit values (quads, then a final group of three or
two values contributing two or one bytes). -/
def b64decodeSextets : List Nat → List Nat
  | a :: b :: c :: d :: rest =>
    (a * 4 + b / 16) :: (b % 16 * 16 + c / 4) :: (c % 4 * 64 + d) :: b64decodeSextets rest
  | [a, b, c] => [a * 4 + b / 16, b % 16 * 16 + c / 4]
  | [a, b] => [a * 4 + b / 16]
  | [_] => []
  | [] => []

/-- `base64.b64decode` in its default non-validating mode: characters outside
the alphabet are discarded, `=` marks padding; it raises `binascii.Error` (a
`ValueError` subclass) when the number of data characters is 1 more than a
multiple of 4, or when data plus padding does not fill whole quads. -/
def b64decode (s : List Char) : Except PyError (List Nat) :=
  let ds := (s.filter (fun c => b64Alphabet.contains c)).map decodeB64Char
  let pads := (s.filter (fun c => c = '=')).length
  if ds.length % 4 = 1 then
    Except.error (PyError.valueError
      "Invalid base64-encoded string: number of data characters cannot be 1 more than a multiple of 4")
  else if (ds.length + pads) % 4 ≠ 0 then
    Except.error (PyError.valueError "Incorrect padding")
  else Except.ok (b64decodeSextets ds)

/-- A decoded PIL image: dimensions plus the flat RGB byte list
(row-major, 3 bytes per pixel). -/
structure PILImage where
  h : Nat
  w : Nat
  pix : List Nat
deriving DecidableEq

/-- Well-formed byte list: every element fits in a uint8. -/
def wfBytes (bs : List Nat) : Prop := ∀ b ∈ bs, b < 256

/-- Well-formed image: pixel data of the right length, uint8 entries, and
dimensions that fit the 4-byte header of the modelled container. -/
def wfImage (img : PILImage) : Prop :=
  img.pix.length = img.h * img.w * 3 ∧ wfBytes img.pix ∧
    img.h < 4294967296 ∧ img.w < 4294967296

/-- Big-endian 4-byte encoding of a dimension. -/
def natToBytes4 (n : Nat) : List Nat :=
  [n / 16777216 % 256, n / 65536 % 256, n / 256 % 256, n % 256]

/-- Value of four big-endian bytes. -/
def bytes4ToNat (a b c d : Nat) : Nat := ((a * 256 + b) * 256 + c) * 256 + d

/-- Modelled from the spec: `PIL.Image.save(buffer, format="PNG")`, the
lossless default encoding (the real PNG container is outside this
repository; it is modelled as the PNG magic followed by the dimensions and
the raw pixel bytes, keeping the documented losslessness). -/
def pilSave (img : PILImage) : List Nat :=
  137 :: 80 :: 78 :: 71 :: 13 :: 10 :: 26 :: 10 ::
    (natToBytes4 img.h ++ (natToBytes4 img.w ++ img.pix))

/-- Modelled from the spec: `PIL.Image.open` on an in-memory byte buffer —
bytes that do not form a recognizable image raise
`PIL.UnidentifiedImageError`, an `OSError` subclass (not a `ValueError`). -/
def pilOpen (bs : List Nat) : Except PyError PILImage :=
  match bs with
  | 137 :: 80 :: 78 :: 71 :: 13 :: 10 :: 26 :: 10 ::
      a1 :: a2 :: a3 :: a4 :: b1 :: b2 :: b3 :: b4 :: rest =>
    if rest.length = bytes4ToNat a1 a2 a3 a4 * bytes4ToNat b1 b2 b3 b4 * 3 then
      Except.ok ⟨bytes4ToNat a1 a2 a3 a4, bytes4ToNat b1 b2 b3 b4, rest⟩
    else Except.error (PyError.osError "cannot identify image file")
  | _ => Except.error (PyError.osError "cannot identify image file")

/-- `data_url.startswith("data:")`. -/
def startsWithData : List Char → Bool
  | 'd' :: 'a' :: 't' :: 'a' :: ':' :: _ => true
  | _ => false

/-- After `;`, the regex `data:image/[^;]+;base64,(.+)` requires the literal
`base64,` and then a non-empty payload; `.` does not match a newline, so the
group is the run of characters before the first newline. -/
def expectB64Tag : List Char → Option (List Char)
  | 'b' :: 'a' :: 's' :: 'e' :: '6' :: '4' :: ',' :: rest =>
    match rest.takeWhile (fun c => c != '\n') with
    | [] => none
    | payload => some payload
  | _ => none

/-- Scanning the `[^;]+` subtype: any further non-`;` characters, then the
`;base64,` tail. -/
def matchSubtypeRest : List Char → Option (List Char)
  | [] => none
  | ';' :: rest => expectB64Tag rest
  | _ :: rest => matchSubtypeRest rest

/-- `re.match(r"data:image/[^;]+;base64,(.+)", data_url)`, returning
`group(1)` when the anchored match succeeds. -/
def matchDataURL (cs : List Char) : Option (List Char) :=
  match cs with
  | 'd' :: 'a' :: 't' :: 'a' :: ':' :: 'i' :: 'm' :: 'a' :: 'g' :: 'e' :: '/' :: c :: rest =>
    if c = ';' then none else matchSubtypeRest rest
  | _ => none

/-- `decode_base64_image` on the character list of the input string: strip
the data-URI wrapper when the `data:` prefix is present (raising
`ValueError("Invalid data URL format")` when the pattern does not match),
base64-decode the payload, and open the bytes as an image. -/
def decode_base64_image_chars (cs : List Char) : Except PyError PILImage :=
  match (if startsWithData cs then
      match matchDataURL cs with
      | some p => Except.ok p
      | none => Except.error (PyError.valueError "Invalid data URL format")
    else Except.ok cs) with
  | Except.error e => Except.error e
  | Except.ok base64_data =>
    match b64decode base64_data with
    | Except.error e => Except.error e
    | Except.ok image_bytes => pilOpen image_bytes

/-- `decode_base64_image(data_url)`. -/
def decode_base64_image (s : String) : Except PyError PILImage :=
  decode_base64_image_chars s.data

/-- `encode_image_to_base64(image)` with the default `format="PNG"`:
serialize, base64-encode, and wrap as `data:image/png;base64,<payload>`. -/
def encode_image_to_base64 (img : PILImage) : String :=
  String.mk ("data:image/png;base64,".data ++ b64encodeBytes (pilSave img))

/-- The JSON request body of `POST /api/v1/inpaint`. -/
structure InpaintRequest where
  image : String
  mask : String
deriving DecidableEq

/-- An HTTP response: status code and body text (for errors, the
`HTTPException` detail). -/
structure HTTPResponse where
  status : Nat
  detail : String
deriving DecidableEq

/-- The `inpaint` route handler: decode both inputs, run the inpainting
pipeline (`proc` abstracts `inpaint_image`, whose model call is opaque),
encode the result; `except ValueError` maps to
`400 "Invalid image data: ..."`, `except Exception` to
`500 "Inpainting failed: ..."`. -/
def routeInpaint (proc : PILImage → PILImage → Except PyError PILImage)
    (req : InpaintRequest) : HTTPResponse :=
  match (do
      let image ← decode_base64_image req.image
      let mask ← decode_base64_image req.mask
      let result ← proc image mask
      pure (encode_image_to_base64 result) : Except PyError String) with
  | Except.ok r => ⟨200, r⟩
  | Except.error (PyError.valueError m) => ⟨400, "Invalid image data: " ++ m⟩
  | Except.error (PyError.osError m) => ⟨500, "Inpainting failed: " ++ m⟩

/-- A stub for the inpainting pipeline stage, used at concrete inputs where
the route fails before reaching it. -/
def procStub : PILImage → PILImage → Except PyError PILImage :=
  fun _ _ => Except.ok ⟨0, 0, []⟩

/-- `"Invalid image data"` occurring inside a response body. -/
def ContainsStr (needle hay : String) : Prop :=
  ∃ a b, hay.data = a ++ needle.data ++ b

deriving instance DecidableEq for Except

/-! ### Codec lemmas -/

lemma b64_contains_enc : ∀ n, n < 64 → b64Alphabet.contains (encodeB64Char n) = true := by
  decide

lemma b64_decode_enc : ∀ n, n < 64 → decodeB64Char (encodeB64Char n) = n := by
  decide

lemma b64_enc_ne_eq : ∀ n, n < 64 → ¬ encodeB64Char n = '=' := by
  decide

lemma b64_enc_ne_nl : ∀ n, n < 64 → ¬ encodeB64Char n = '\n' := by
  decide

lemma b64_contains_pad : b64Alphabet.contains '=' = false := by decide

lemma wfBytes_cons {x : Nat} {l : List Nat} (h : wfBytes (x :: l)) : x < 256 ∧ wfBytes l :=
  ⟨h x (by simp), fun b hb => h b (by simp [hb])⟩

lemma b64enc_core : ∀ bs : List Nat, wfBytes bs →
    b64decodeSextets
        (((b64encodeBytes bs).filter (fun c => b64Alphabet.contains c)).map decodeB64Char)
      = bs ∧
    ((b64encodeBytes bs).filter (fun c => b64Alphabet.contains c)).length % 4 ≠ 1 ∧
    (((b64encodeBytes bs).filter (fun c => b64Alphabet.contains c)).length +
      ((b64encodeBytes bs).filter (fun c => c = '=')).length) % 4 = 0 := by
  intro bs
  induction bs using b64encodeBytes.induct with
  | case1 x y z rest ih =>
    intro hwf
    obtain ⟨hx, hwf2⟩ := wfBytes_cons hwf
    obtain ⟨hy, hwf3⟩ := wfBytes_cons hwf2
    obtain ⟨hz, hrest⟩ := wfBytes_cons hwf3
    obtain ⟨ihA, ihB, ihC⟩ := ih hrest
    have c0 := b64_contains_enc (x / 4) (by omega)
    have c1 := b64_contains_enc (x % 4 * 16 + y / 16) (by omega)
    have c2 := b64_contains_enc (y % 16 * 4 + z / 64) (by omega)
    have c3 := b64_contains_enc (z % 64) (by omega)
    have d0 := b64_decode_enc (x / 4) (by omega)
    have d1 := b64_decode_enc (x % 4 * 16 + y / 16) (by omega)
    have d2 := b64_decode_enc (y % 16 * 4 + z / 64) (by omega)
    have d3 := b64_decode_enc (z % 64) (by omega)
    have e0 := b64_enc_ne_eq (x / 4) (by omega)
    have e1 := b64_enc_ne_eq (x % 4 * 16 + y / 16) (by omega)
    have e2 := b64_enc_ne_eq (y % 16 * 4 + z / 64) (by omega)
    have e3 := b64_enc_ne_eq (z % 64) (by omega)
    simp only [b64encodeBytes, List.filter_cons, c0, c1, c2, c3, eq_self_iff_true, if_true,
      decide_eq_true_eq, e0, e1, e2, e3, iff_false, if_false, List.map_cons, d0, d1, d2, d3,
      b64decodeSextets, List.length_cons, List.cons.injEq]
    refine ⟨⟨by omega, by omega, by omega, ihA⟩, by omega, by omega⟩
  | case2 x y =>
    intro hwf
    obtain ⟨hx, hwf2⟩ := wfBytes_cons hwf
    obtain ⟨hy, -⟩ := wfBytes_cons hwf2
    have c0 := b64_contains_enc (x / 4) (by omega)
    have c1 := b64_contains_enc (x % 4 * 16 + y / 16) (by omega)
    have c2 := b64_contains_enc (y % 16 * 4) (by omega)
    have d0 := b64_decode_enc (x / 4) (by omega)
    have d1 := b64_decode_enc (x % 4 * 16 + y / 16) (by omega)
    have d2 := b64_decode_enc (y % 16 * 4) (by omega)
    have e0 := b64_enc_ne_eq (x / 4) (by omega)
    have e1 := b64_enc_ne_eq (x % 4 * 16 + y / 16) (by omega)
    have e2 := b64_enc_ne_eq (y % 16 * 4) (by omega)
    simp only [b64encodeBytes, List.filter_cons, c0, c1, c2, b64_contains_pad,
      Bool.false_eq_true, eq_self_iff_true, if_true, decide_eq_true_eq, e0, e1, e2,
      iff_false, if_false, List.map_cons, d0, d1, d2, b64decodeSextets, List.filter_nil,
      List.map_nil, List.length_cons, List.length_nil, List.cons.injEq]
    have h1 : (x % 4 * 16 + y / 16) % 16 = y / 16 := by
      conv_lhs => rw [Nat.add_comm]
      rw [Nat.add_mul_mod_self_right]
      exact Nat.mod_eq_of_lt (by omega)
    have h2 : y % 16 * 4 / 4 = y % 16 := by omega
    refine ⟨⟨by omega, by rw [h1, h2]; omega, trivial⟩, by decide, trivial⟩
  | case3 x =>
    intro hwf
    obtain ⟨hx, -⟩ := wfBytes_cons hwf
    have c0 := b64_contains_enc (x / 4) (by omega)
    have c1 := b64_contains_enc (x % 4 * 16) (by omega)
    have d0 := b64_decode_enc (x / 4) (by omega)
    have d1 := b64_decode_enc (x % 4 * 16) (by omega)
    have e0 := b64_enc_ne_eq (x / 4) (by omega)
    have e1 := b64_enc_ne_eq (x % 4 * 16) (by omega)
    simp only [b64encodeBytes, List.filter_cons, c0, c1, b64_contains_pad,
      Bool.false_eq_true, eq_self_iff_true, if_true, decide_eq_true_eq, e0, e1,
      iff_false, if_false, List.map_cons, d0, d1, b64decodeSextets, List.filter_nil,
      List.map_nil, List.length_cons, List.length_nil, List.cons.injEq]
    have h2 : x % 4 * 16 / 16 = x % 4 := by omega
    refine ⟨⟨by rw [h2]; omega, trivial⟩, by decide, trivial⟩
  | case4 =>
    intro _
    exact ⟨rfl, by decide, by decide⟩

lemma b64_roundtrip (bs : List Nat) (hwf : wfBytes bs) :
    b64decode (b64encodeBytes bs) = Except.ok bs := by
  obtain ⟨hA, hB, hC⟩ := b64enc_core bs hwf
  simp only [b64decode, List.length_map]
  rw [if_neg hB, if_neg (by omega), hA]

lemma b64enc_no_newline : ∀ bs : List Nat, wfBytes bs →
    ∀ c ∈ b64encodeBytes bs, ¬ c = '\n' := by
  intro bs
  induction bs using b64encodeBytes.induct with
  | case1 x y z rest ih =>
    intro hwf
    obtain ⟨hx, hwf2⟩ := wfBytes_cons hwf
    obtain ⟨hy, hwf3⟩ := wfBytes_cons hwf2
    obtain ⟨hz, hrest⟩ := wfBytes_cons hwf3
    intro c hc
    simp only [b64encodeBytes, List.mem_cons] at hc
    rcases hc with rfl | rfl | rfl | rfl | hc
    · exact b64_enc_ne_nl _ (by omega)
    · exact b64_enc_ne_nl _ (by omega)
    · exact b64_enc_ne_nl _ (by omega)
    · exact b64_enc_ne_nl _ (by omega)
    · exact ih hrest c hc
  | case2 x y =>
    intro hwf
    obtain ⟨hx, hwf2⟩ := wfBytes_cons hwf
    obtain ⟨hy, -⟩ := wfBytes_cons hwf2
    intro c hc
    simp only [b64encodeBytes, List.mem_cons, List.not_mem_nil, or_false] at hc
    rcases hc with rfl | rfl | rfl | rfl
    · exact b64_enc_ne_nl _ (by omega)
    · exact b64_enc_ne_nl _ (by omega)
    · exact b64_enc_ne_nl _ (by omega)
    · decide
  | case3 x =>
    intro hwf
    obtain ⟨hx, -⟩ := wfBytes_cons hwf
    intro c hc
    simp only [b64encodeBytes, List.mem_cons, List.not_mem_nil, or_false] at hc
    rcases hc with rfl | rfl | rfl | rfl
    · exact b64_enc_ne_nl _ (by omega)
    · exact b64_enc_ne_nl _ (by omega)
    · decide
    · decide
  | case4 =>
    intro _ c hc
    simp [b64encodeBytes] at hc

lemma takeWhile_of_all {α : Type} (p : α → Bool) :
    ∀ l : List α, (∀ a ∈ l, p a = true) → l.takeWhile p = l := by
  intro l
  induction l with
  | nil => intro _; rfl
  | cons a l ih =>
    intro h
    simp only [List.takeWhile_cons, h a (by simp), if_true]
    rw [ih (fun b hb => h b (by simp [hb]))]

lemma bytes4_roundtrip (n : Nat) (h : n < 4294967296) :
    bytes4ToNat (n / 16777216 % 256) (n / 65536 % 256) (n / 256 % 256) (n % 256) = n := by
  unfold bytes4ToNat
  omega

lemma pilSave_wf (img : PILImage) (hwf : wfImage img) : wfBytes (pilSave img) := by
  obtain ⟨-, hpix, -, -⟩ := hwf
  intro b hb
  simp only [pilSave, natToBytes4, List.mem_cons, List.mem_append] at hb
  rcases hb with rfl | rfl | rfl | rfl | rfl | rfl | rfl | rfl | hb
  · omega
  · omega
  · omega
  · omega
  · omega
  · omega
  · omega
  · omega
  rcases hb with hb | hb | hb
  · simp only [List.mem_cons, List.not_mem_nil, or_false] at hb
    rcases hb with rfl | rfl | rfl | rfl <;> omega
  · simp only [List.mem_cons, List.not_mem_nil, or_false] at hb
    rcases hb with rfl | rfl | rfl | rfl <;> omega
  · exact hpix b hb

lemma pil_roundtrip (img : PILImage) (hwf : wfImage img) :
    pilOpen (pilSave img) = Except.ok img := by
  obtain ⟨hlen, -, hh, hw⟩ := hwf
  rcases img with ⟨h, w, pix⟩
  simp only at hlen hh hw
  simp only [pilSave, natToBytes4, List.cons_append, List.nil_append, pilOpen]
  rw [bytes4_roundtrip h hh, bytes4_roundtrip w hw]
  rw [if_pos hlen]

/-- C5: decoding the data URI produced by encoding a (well-formed) image with
the default lossless PNG format recovers the image pixel-for-pixel. -/
theorem encode_decode_roundtrip (img : PILImage) (hwf : wfImage img) :
    decode_base64_image (encode_image_to_base64 img) = Except.ok img := by
  unfold encode_image_to_base64 decode_base64_image
  have hwfB : wfBytes (pilSave img) := pilSave_wf img hwf
  have hnl : ∀ c ∈ b64encodeBytes (pilSave img), (c != '\n') = true := fun c hc => by
    rw [bne_iff_ne]
    exact b64enc_no_newline _ hwfB c hc
  have htake : (b64encodeBytes (pilSave img)).takeWhile (fun c => c != '\n')
      = b64encodeBytes (pilSave img) := takeWhile_of_all _ _ hnl
  have hne : b64encodeBytes (pilSave img) ≠ [] := by
    simp [pilSave, b64encodeBytes]
  have hmatch : matchDataURL ("data:image/png;base64,".data ++ b64encodeBytes (pilSave img))
      = some (b64encodeBytes (pilSave img)) := by
    show (match (b64encodeBytes (pilSave img)).takeWhile (fun c => c != '\n') with
      | [] => none
      | payload => some payload) = some (b64encodeBytes (pilSave img))
    rw [htake]
    rcases hp : b64encodeBytes (pilSave img) with - | ⟨c, cs⟩
    · exact absurd hp hne
    · rfl
  have hstart : startsWithData ("data:image/png;base64,".data ++ b64encodeBytes (pilSave img))
      = true := rfl
  show decode_base64_image_chars
      ("data:image/png;base64,".data ++ b64encodeBytes (pilSave img)) = Except.ok img
  simp only [decode_base64_image_chars, hstart, if_true, hmatch,
    b64_roundtrip (pilSave img) hwfB, pil_roundtrip img hwf]

/-- Witness for C5 at a concrete 1×1 image. -/
theorem encode_decode_roundtrip_witness :
    decode_base64_image (encode_image_to_base64 (PILImage.mk 1 1 [10, 20, 30]))
      = Except.ok (PILImage.mk 1 1 [10, 20, 30]) :=
  encode_decode_roundtrip (PILImage.mk 1 1 [10, 20, 30])
    ⟨by decide, by unfold wfBytes; decide, by decide, by decide⟩

/-- C2 counterexample: `"aGVsbG8="` is a well-formed base64 payload whose
decoded bytes (`"hello"`) are not a recognizable image. Decoding raises the
`OSError`-derived `UnidentifiedImageError`, not a `ValueError`, so the
endpoint answers HTTP 500 (`"Inpainting failed: ..."`), not HTTP 400 with
`"Invalid image data"`, contradicting the claim for this decode-failure
class. -/
theorem decode_unrecognized_gives_500 :
    decode_base64_image "aGVsbG8=" = Except.error (PyError.osError "cannot identify image file")
    ∧ routeInpaint procStub ⟨"aGVsbG8=", "aGVsbG8="⟩
      = ⟨500, "Inpainting failed: cannot identify image file"⟩
    ∧ (routeInpaint procStub ⟨"aGVsbG8=", "aGVsbG8="⟩).status ≠ 400 := by
  refine ⟨by decide, by decide, by decide⟩

/-- C2 (amended): when decoding of the submitted image or mask fails with a
`ValueError` — data-URI prefix present but not matching the pattern, or
invalid base64 payload — the endpoint responds HTTP 400 with a message
containing `"Invalid image data"`; but when the decoded bytes do not form a
recognizable image the raised error is an `OSError` subclass and the
endpoint responds HTTP 500. -/
theorem route_error_mapping (proc : PILImage → PILImage → Except PyError PILImage)
    (req : InpaintRequest) (m : String) :
    (decode_base64_image req.image = Except.error (PyError.valueError m) →
      routeInpaint proc req = ⟨400, "Invalid image data: " ++ m⟩ ∧
      ContainsStr "Invalid image data" (routeInpaint proc req).detail) ∧
    (decode_base64_image req.image = Except.error (PyError.osError m) →
      (routeInpaint proc req).status = 500) ∧
    (∀ img, decode_base64_image req.image = Except.ok img →
      decode_base64_image req.mask = Except.error (PyError.valueError m) →
      routeInpaint proc req = ⟨400, "Invalid image data: " ++ m⟩ ∧
      ContainsStr "Invalid image data" (routeInpaint proc req).detail) ∧
    (∀ img, decode_base64_image req.image = Except.ok img →
      decode_base64_image req.mask = Except.error (PyError.osError m) →
      (routeInpaint proc req).status = 500) := by
  have hcontains : ContainsStr "Invalid image data" ("Invalid image data: " ++ m) := by
    refine ⟨[], ": ".data ++ m.data, ?_⟩
    show ("Invalid image data: " ++ m).data = [] ++ "Invalid image data".data ++ (": ".data ++ m.data)
    rw [String.data_append]
    simp [List.append_assoc]
  refine ⟨?_, ?_, ?_, ?_⟩
  · intro h
    have hr : routeInpaint proc req = ⟨400, "Invalid image data: " ++ m⟩ := by
      simp only [routeInpaint, bind, Except.bind, h]
    exact ⟨hr, by rw [hr]; exact hcontains⟩
  · intro h
    simp only [routeInpaint, bind, Except.bind, h]
  · intro img h1 h2
    have hr : routeInpaint proc req = ⟨400, "Invalid image data: " ++ m⟩ := by
      simp only [routeInpaint, bind, Except.bind, h1, h2]
    exact ⟨hr, by rw [hr]; exact hcontains⟩
  · intro img h1 h2
    simp only [routeInpaint, bind, Except.bind, h1, h2]

/-- Witness for the amended C2: a non-matching data URI yields 400 with
"Invalid image data", and unrecognizable decoded bytes in the mask position
yield 500. -/
theorem route_error_mapping_witness :
    routeInpaint procStub ⟨"data:video/mp4;base64,AAAA", "x"⟩
      = ⟨400, "Invalid image data: Invalid data URL format"⟩ ∧
    (routeInpaint procStub
      ⟨encode_image_to_base64 (PILImage.mk 0 0 []), "aGVsbG8="⟩).status = 500 :=
  ⟨((route_error_mapping procStub ⟨"data:video/mp4;base64,AAAA", "x"⟩
      "Invalid data URL format").1 (by decide)).1,
   (route_error_mapping procStub ⟨encode_image_to_base64 (PILImage.mk 0 0 []), "aGVsbG8="⟩
      "cannot identify image file").2.2.2 (PILImage.mk 0 0 []) (by decide) (by decide)⟩
